import Mathlib

/-!
Shallow embedding of the Playbase video-sharing backend (`src/server.js`).

The server is thin Express glue over three capabilities: a relational store
(users and videos tables), a multer disk-storage upload pipeline, and bcrypt
password hashing.  We embed, faithfully to the JavaScript source:

* `Node.extname` / `Playbase.lastComponent` — Node's `path.extname` (posix),
  which returns the portion of the last path component from its final dot,
  with the special cases: no dot, a lone leading dot, and a component equal
  to `".."` all yield the empty extension.
* `Playbase.hasSeq` — the semantics of `/mp4|mov|avi|mkv/.test(s)`: an
  unanchored regex of plain alternatives tests substring containment.
* `Playbase.fileFilterAccepts` — multer's `fileFilter` (server.js:50-60).
* `Playbase.storedFilename` — `Date.now() + path.extname(file.originalname)`
  (server.js:41-44); JavaScript number-plus-string renders the integer in
  decimal, embedded as `Nat.repr`.
* `Playbase.uploadFlow` — the multer stage (file written to disk before the
  route handler runs; over-limit or filtered files never reach the handler)
  followed by the `POST /upload-video` handler (server.js:113-137).
* `Playbase.loginFlow` / `Playbase.signupFlow` — the `POST /login` and
  `POST /signup` handlers (server.js:140-217); bcrypt is abstracted as an
  arbitrary compare function / hash function parameter.
* `Playbase.loadData` — the startup load of the videos table into the
  in-process catalog cache (server.js:72-98).

Fallible database interaction is made explicit by an outcome parameter
telling which step of the handler's store conversation (connect, select,
insert, commit, close) fails, if any; a row reaches the store exactly when
`INSERT` and `COMMIT` both executed (a failure at `close` happens after the
commit, so the row persists but the code after `await connection.close()`
is skipped).
-/

namespace Playbase

/-- Characters of a string, lowercased as JavaScript `toLowerCase` does on
the ASCII filenames at issue. -/
def lowerStr (s : String) : String := ⟨s.data.map Char.toLower⟩

/-- `leadsWith n h` : the character list `h` begins with `n`. -/
def leadsWith : List Char → List Char → Bool
  | [], _ => true
  | _ :: _, [] => false
  | n :: ns, h :: hs => n = h && leadsWith ns hs

/-- `hasSeq n h` : `n` occurs contiguously somewhere inside `h`.  This is the
semantics of JavaScript `/…/.test(h)` for a regex that is a plain literal
alternative, as in `const fileTypes = /mp4|mov|avi|mkv/` (server.js:51). -/
def hasSeq (needle : List Char) : List Char → Bool
  | [] => leadsWith needle []
  | h :: hs => leadsWith needle (h :: hs) || hasSeq needle hs

/-- Substring containment as a proposition: `n` occurs contiguously in `h`. -/
def SeqIn (n h : List Char) : Prop := ∃ s t, h = s ++ n ++ t

/-- The four alternatives of the upload regex `/mp4|mov|avi|mkv/`. -/
def allowedTypeWords : List String := ["mp4", "mov", "avi", "mkv"]

/-- `/mp4|mov|avi|mkv/.test s` (server.js:51-53). -/
def videoTypeTest (s : String) : Bool :=
  hasSeq "mp4".data s.data || hasSeq "mov".data s.data ||
  hasSeq "avi".data s.data || hasSeq "mkv".data s.data

end Playbase

namespace Node

/-- The last path component of `p`, ignoring trailing slashes, as Node's
posix `path` functions delimit it. -/
def lastComponent (p : List Char) : List Char :=
  (((p.reverse).dropWhile (fun c => c = '/')).takeWhile (fun c => c ≠ '/')).reverse

/-- Node `path.extname` on the characters of a path: the suffix of the last
component from its final dot.  Empty when the component has no dot, when its
only dot is the leading character (dotfiles such as `.bashrc`), or when the
component is exactly `".."`. -/
def extnameChars (p : List Char) : List Char :=
  let b := lastComponent p
  let tailPart := ((b.reverse).takeWhile (fun c => c ≠ '.')).reverse
  if tailPart.length = b.length then []
  else if tailPart.length + 1 = b.length then []
  else if b = ['.', '.'] then []
  else '.' :: tailPart

/-- Node `path.extname` on strings (used at server.js:43 and server.js:52). -/
def extname (p : String) : String := ⟨extnameChars p.data⟩

end Node

namespace Playbase

/-- multer `fileFilter` (server.js:50-60): accept iff the regex matches the
lowercased extension of the client-declared filename AND the regex matches
the declared MIME type (the MIME type is tested without lowercasing). -/
def fileFilterAccepts (originalname mimetype : String) : Bool :=
  videoTypeTest (lowerStr (Node.extname originalname)) && videoTypeTest mimetype

/-- multer `limits.fileSize` (server.js:49): `200 * 1024 * 1024` bytes.
busboy truncates a part only once its byte count exceeds the limit, so a
file of exactly this size is accepted. -/
def fileSizeLimit : Nat := 200 * 1024 * 1024

/-- Stored filename (server.js:41-44): `Date.now() + path.extname(file.originalname)`,
i.e. the decimal rendering of the upload instant followed by the extension
extracted from the client-declared name. -/
def storedFilename (now : Nat) (originalname : String) : String :=
  Nat.repr now ++ Node.extname originalname

/-- The relative path recorded for an upload (server.js:115):
`/uploads/${req.file.filename}`. -/
def videoPathFor (now : Nat) (originalname : String) : String :=
  "/uploads/" ++ storedFilename now originalname

/-- The client-declared attributes of one multipart file part. -/
structure UploadFile where
  originalname : String
  mimetype : String
  size : Nat
deriving DecidableEq

/-- One element of the in-process catalog cache `loadedData`.  Entries built
by the startup load carry the numeric `id` column; entries pushed by the
upload handler have no `id` field, embedded as `none` (server.js:78-84 vs
server.js:131). -/
structure CacheEntry where
  id : Option Int
  title : String
  description : String
  tags : String
  videoPath : String
deriving DecidableEq

/-- A row as the upload handler inserts it into the `videos` table
(server.js:124-127); the store assigns `id` itself, outside this model. -/
structure VideoRow where
  title : String
  description : String
  tags : String
  videoPath : String
deriving DecidableEq

/-- A row of the `videos` table as the startup `SELECT * FROM videos`
returns it (server.js:76-84). -/
structure DbVideoRow where
  id : Int
  title : String
  description : String
  tags : String
  videoPath : String
deriving DecidableEq

/-- A row of the `users` table. -/
structure UserRow where
  id : Int
  username : String
  passwordHash : String
deriving DecidableEq

/-- The server-side state an upload touches: the `uploads/` directory, the
`videos` table, and the in-process cache `loadedData`. -/
structure ServerState where
  uploadsDir : List String
  videosTable : List VideoRow
  loadedData : List CacheEntry
deriving DecidableEq

/-- The JSON body and status the handlers produce.  `errMsg` is the optional
`error` field (only the upload route and the catch-all middleware attach the
underlying message); `respPath` is the optional `videoPath` field of the
upload success body. -/
structure HttpResponse where
  status : Nat
  message : String
  errMsg : Option String
  respPath : Option String
deriving DecidableEq

/-- The steps of the upload handler's store conversation, in program order
(server.js:122-129). -/
inductive DbStage
  | conn
  | insert
  | commit
  | close
deriving DecidableEq

/-- Which step of the upload handler's store conversation fails, if any. -/
inductive DbOutcome
  | ok
  | fail (stage : DbStage) (msg : String)
deriving DecidableEq

/-- The `videos` table after a failed upload conversation: a failure at
`close` happens after `COMMIT`, so the row persists; any earlier failure
leaves no committed row. -/
def uploadFailTable (stage : DbStage) (row : VideoRow) (table : List VideoRow) :
    List VideoRow :=
  match stage with
  | DbStage.close => table ++ [row]
  | _ => table

/-- The multer stage plus the `POST /upload-video` handler (server.js:37-61
and 113-137).  A present file that passes the type and size gates is written
to disk by multer BEFORE the handler body runs; the handler then checks the
required fields, talks to the store, and on success pushes onto the cache.
A file rejected by `fileFilter` or the size limit aborts the request into
the catch-all error middleware (server.js:220-223), which answers 500 with
the error's message; multer does not keep the rejected file. -/
def uploadFlow (now : Nat) (file : Option UploadFile)
    (title description tags : String) (db : DbOutcome) (st : ServerState) :
    ServerState × HttpResponse :=
  match file with
  | none =>
      (st, ⟨400, "Please provide all fields and a video file.", none, none⟩)
  | some f =>
      if fileFilterAccepts f.originalname f.mimetype = true then
        if f.size ≤ fileSizeLimit then
          let fname := storedFilename now f.originalname
          let st1 : ServerState := ⟨st.uploadsDir ++ [fname], st.videosTable, st.loadedData⟩
          let vp := "/uploads/" ++ fname
          if title = "" ∨ description = "" ∨ tags = "" then
            (st1, ⟨400, "Please provide all fields and a video file.", none, none⟩)
          else
            match db with
            | DbOutcome.ok =>
                (⟨st1.uploadsDir,
                  st1.videosTable ++ [⟨title, description, tags, vp⟩],
                  st1.loadedData ++ [⟨none, title, description, tags, vp⟩]⟩,
                 ⟨200, "Video uploaded successfully!", none, some vp⟩)
            | DbOutcome.fail stage m =>
                (⟨st1.uploadsDir,
                  uploadFailTable stage ⟨title, description, tags, vp⟩ st1.videosTable,
                  st1.loadedData⟩,
                 ⟨500, "Database error", some m, none⟩)
        else
          (st, ⟨500, "An internal server error occurred.", some "File too large", none⟩)
      else
        (st, ⟨500, "An internal server error occurred.", some "Only video files are allowed!", none⟩)

/-- Startup load (server.js:72-98): `SELECT * FROM videos`, each row mapped
to a cache entry carrying the numeric `id` column. -/
def loadData (rows : List DbVideoRow) : List CacheEntry :=
  rows.map (fun r => ⟨some r.id, r.title, r.description, r.tags, r.videoPath⟩)

/-- `GET /api/videos` serves the cache verbatim (server.js:101-108). -/
def listAll (st : ServerState) : List CacheEntry := st.loadedData

/-- The `POST /login` handler (server.js:179-217).  `compareFn` abstracts
`bcrypt.compare`; `dbErr` is the message of a store failure, if any; the
query `WHERE username = :username AND ROWNUM = 1` returns the first matching
row, embedded as `List.find?`. -/
def loginFlow (compareFn : String → String → Bool) (dbErr : Option String)
    (users : List UserRow) (username password : String) : HttpResponse :=
  if username = "" ∨ password = "" then
    ⟨400, "Please provide both username and password.", none, none⟩
  else
    match dbErr with
    | some _ => ⟨500, "Error logging in.", none, none⟩
    | none =>
        match users.find? (fun u => u.username = username) with
        | none => ⟨401, "Invalid username or password.", none, none⟩
        | some u =>
            if compareFn password u.passwordHash = true then
              ⟨200, "Login successful!", none, none⟩
            else
              ⟨401, "Invalid username or password.", none, none⟩

/-- The steps of the signup handler's store conversation, in program order
(server.js:149-169). -/
inductive SignupStage
  | conn
  | select
  | insert
  | commit
  | close
deriving DecidableEq

/-- Which step of the signup handler's store conversation fails, if any. -/
inductive SignupDbOutcome
  | ok
  | fail (stage : SignupStage) (msg : String)
deriving DecidableEq

/-- The fixed body of the signup catch block (server.js:172-175): the
underlying error message is logged but NOT placed in the response. -/
def signupStoreFailure : HttpResponse :=
  ⟨500, "Error registering user.", none, none⟩

/-- The `POST /signup` handler (server.js:140-176).  `hash` abstracts
`bcrypt.hash(password, 10)`; `nextId` is the id the store would assign to a
new row.  The duplicate check runs after the `SELECT` succeeds and before
the `INSERT`; a failure at `close` happens after `COMMIT`, so the new row
persists even though the response is the 500 catch body. -/
def signupFlow (hash : String → String) (db : SignupDbOutcome)
    (users : List UserRow) (nextId : Int) (username password : String) :
    List UserRow × HttpResponse :=
  if username = "" ∨ password = "" then
    (users, ⟨400, "Please provide both username and password.", none, none⟩)
  else
    match db with
    | SignupDbOutcome.fail SignupStage.conn _ => (users, signupStoreFailure)
    | SignupDbOutcome.fail SignupStage.select _ => (users, signupStoreFailure)
    | SignupDbOutcome.ok =>
        if (users.find? (fun u => u.username = username)).isSome = true then
          (users, ⟨400, "Username already exists.", none, none⟩)
        else
          (users ++ [⟨nextId, username, hash password⟩],
           ⟨200, "User registered successfully!", none, none⟩)
    | SignupDbOutcome.fail SignupStage.insert _ =>
        if (users.find? (fun u => u.username = username)).isSome = true then
          (users, ⟨400, "Username already exists.", none, none⟩)
        else
          (users, signupStoreFailure)
    | SignupDbOutcome.fail SignupStage.commit _ =>
        if (users.find? (fun u => u.username = username)).isSome = true then
          (users, ⟨400, "Username already exists.", none, none⟩)
        else
          (users, signupStoreFailure)
    | SignupDbOutcome.fail SignupStage.close _ =>
        if (users.find? (fun u => u.username = username)).isSome = true then
          (users, ⟨400, "Username already exists.", none, none⟩)
        else
          (users ++ [⟨nextId, username, hash password⟩], signupStoreFailure)

/-- `db` reaches the duplicate-username check: the connection and the
`SELECT` both succeeded. -/
def reachesDupCheck : SignupDbOutcome → Bool
  | SignupDbOutcome.fail SignupStage.conn _ => false
  | SignupDbOutcome.fail SignupStage.select _ => false
  | _ => true

end Playbase

namespace Playbase

/-- Helper: `leadsWith n h` decides whether `h` starts with `n`. -/
theorem leadsWith_iff (n : List Char) : ∀ h : List Char,
    leadsWith n h = true ↔ ∃ t, h = n ++ t := by
  induction n with
  | nil => intro h; simp [leadsWith]
  | cons a as ih =>
    intro h
    cases h with
    | nil =>
      simp only [leadsWith, List.cons_append]
      constructor
      · intro hfalse; cases hfalse
      · rintro ⟨t, ht⟩; cases ht
    | cons b bs =>
      simp only [leadsWith, Bool.and_eq_true, decide_eq_true_eq, ih, List.cons_append]
      constructor
      · rintro ⟨rfl, t, rfl⟩; exact ⟨t, rfl⟩
      · rintro ⟨t, ht⟩
        injection ht with h1 h2
        exact ⟨h1.symm, t, h2⟩

/-- Helper: `hasSeq n h` decides substring containment, which is the
semantics of the unanchored alternative regex test. -/
theorem hasSeq_iff (n : List Char) : ∀ h : List Char,
    hasSeq n h = true ↔ SeqIn n h := by
  intro h
  induction h with
  | nil =>
    simp only [hasSeq, leadsWith_iff, SeqIn]
    constructor
    · rintro ⟨t, ht⟩; exact ⟨[], t, by simpa using ht⟩
    · rintro ⟨s, t, hst⟩
      have h0 : (s ++ n) ++ t = [] := by rw [← hst]
      rcases List.append_eq_nil.mp h0 with ⟨h1, h2⟩
      rcases List.append_eq_nil.mp h1 with ⟨_, h3⟩
      exact ⟨[], by simp [h3]⟩
  | cons c cs ih =>
    simp only [hasSeq, Bool.or_eq_true, leadsWith_iff, ih, SeqIn]
    constructor
    · rintro (⟨t, ht⟩ | ⟨s, t, hst⟩)
      · exact ⟨[], t, by simpa using ht⟩
      · exact ⟨c :: s, t, by simp [hst]⟩
    · rintro ⟨s, t, hst⟩
      cases s with
      | nil => exact Or.inl ⟨t, by simpa using hst⟩
      | cons a as =>
        rw [List.cons_append, List.cons_append] at hst
        injection hst with h1 h2
        exact Or.inr ⟨as, t, h2⟩

/-- Helper: the regex test accepts exactly the strings containing one of the
four alternatives as a substring. -/
theorem videoTypeTest_iff (s : String) :
    videoTypeTest s = true ↔ ∃ w ∈ allowedTypeWords, SeqIn w.data s.data := by
  simp only [videoTypeTest, Bool.or_eq_true, hasSeq_iff, allowedTypeWords]
  constructor
  · rintro (((h | h) | h) | h)
    · exact ⟨"mp4", by simp, h⟩
    · exact ⟨"mov", by simp, h⟩
    · exact ⟨"avi", by simp, h⟩
    · exact ⟨"mkv", by simp, h⟩
  · rintro ⟨w, hw, h⟩
    simp only [List.mem_cons, List.not_mem_nil, or_false] at hw
    rcases hw with rfl | rfl | rfl | rfl
    · exact Or.inl (Or.inl (Or.inl h))
    · exact Or.inl (Or.inl (Or.inr h))
    · exact Or.inl (Or.inr h)
    · exact Or.inr h

end Playbase

namespace Node

/-- Helper: the last path component contains no slash. -/
theorem slash_notMem_lastComponent (p : List Char) : '/' ∉ lastComponent p := by
  intro hmem
  rw [lastComponent, List.mem_reverse] at hmem
  have hpred := List.mem_takeWhile_imp hmem
  simp at hpred

/-- Helper: the extracted extension contains no slash: it is a dot followed
by a slash-free suffix of the last path component. -/
theorem slash_notMem_extnameChars (p : List Char) : '/' ∉ extnameChars p := by
  intro hmem
  rw [extnameChars] at hmem
  split at hmem
  · cases hmem
  · split at hmem
    · cases hmem
    · split at hmem
      · cases hmem
      · rcases List.mem_cons.mp hmem with hdot | htail
        · cases hdot
        · rw [List.mem_reverse] at htail
          have hsub := List.takeWhile_subset (fun c => c ≠ '.') htail
          rw [List.mem_reverse] at hsub
          exact slash_notMem_lastComponent p hsub

/-- Helper: the extension of any client-supplied path is slash-free. -/
theorem slash_notMem_extname_data (p : String) : '/' ∉ (extname p).data :=
  slash_notMem_extnameChars p.data

end Node

namespace Playbase

/-- Helper: no decimal (or hex) digit character is a slash or a dot. -/
theorem digitChar_ne_slash_dot (d : Nat) :
    Nat.digitChar d ≠ '/' ∧ Nat.digitChar d ≠ '.' := by
  rcases Nat.lt_or_ge d 16 with h | h
  · interval_cases d <;> exact ⟨by decide, by decide⟩
  · have hstar : Nat.digitChar d = '*' := by
      unfold Nat.digitChar
      repeat rw [if_neg (by omega)]
    rw [hstar]
    exact ⟨by decide, by decide⟩

/-- Helper: every character `Nat.toDigitsCore` emits is either carried over
from the accumulator or is a digit character. -/
theorem toDigitsCore_mem (b : Nat) : ∀ (fuel n : Nat) (ds : List Char) (c : Char),
    c ∈ Nat.toDigitsCore b fuel n ds → c ∈ ds ∨ ∃ d, c = Nat.digitChar d := by
  intro fuel
  induction fuel with
  | zero =>
    intro n ds c h
    unfold Nat.toDigitsCore at h
    exact Or.inl h
  | succ f ih =>
    intro n ds c h
    unfold Nat.toDigitsCore at h
    dsimp only at h
    split at h
    · rcases List.mem_cons.mp h with rfl | h
      · exact Or.inr ⟨n % b, rfl⟩
      · exact Or.inl h
    · rcases ih (n / b) (Nat.digitChar (n % b) :: ds) c h with h2 | h2
      · rcases List.mem_cons.mp h2 with rfl | h2
        · exact Or.inr ⟨n % b, rfl⟩
        · exact Or.inl h2
      · exact Or.inr h2

/-- Helper: `Nat.toDigitsCore` never empties a nonempty accumulator. -/
theorem toDigitsCore_cons_ne_nil (b : Nat) :
    ∀ (fuel n : Nat) (c : Char) (ds : List Char),
      Nat.toDigitsCore b fuel n (c :: ds) ≠ [] := by
  intro fuel
  induction fuel with
  | zero =>
    intro n c ds
    unfold Nat.toDigitsCore
    exact List.cons_ne_nil c ds
  | succ f ih =>
    intro n c ds
    unfold Nat.toDigitsCore
    dsimp only
    split
    · exact List.cons_ne_nil _ _
    · exact ih (n / b) (Nat.digitChar (n % b)) (c :: ds)

/-- Helper: the decimal rendering of a natural number is nonempty. -/
theorem toDigits_ne_nil (n : Nat) : Nat.toDigits 10 n ≠ [] := by
  unfold Nat.toDigits
  unfold Nat.toDigitsCore
  dsimp only
  split
  · exact List.cons_ne_nil _ _
  · exact toDigitsCore_cons_ne_nil 10 n (n / 10) (Nat.digitChar (n % 10)) []

/-- Helper: the characters of `Nat.repr n` are the digits of `n`. -/
theorem repr_data_eq (n : Nat) : (Nat.repr n).data = Nat.toDigits 10 n := rfl

/-- Helper: no character of a decimal rendering is a slash or a dot. -/
theorem repr_mem_ne_slash_dot {n : Nat} {c : Char} (h : c ∈ (Nat.repr n).data) :
    c ≠ '/' ∧ c ≠ '.' := by
  rw [repr_data_eq] at h
  unfold Nat.toDigits at h
  rcases toDigitsCore_mem 10 (n + 1) n [] c h with h2 | ⟨d, rfl⟩
  · cases h2
  · exact digitChar_ne_slash_dot d

/-- Helper: the decimal rendering of a natural number is a nonempty string. -/
theorem repr_data_ne_nil (n : Nat) : (Nat.repr n).data ≠ [] := by
  rw [repr_data_eq]
  exact toDigits_ne_nil n

/-- Helper: the characters of a stored filename split into the decimal
instant followed by the extracted extension. -/
theorem storedFilename_data (now : Nat) (orig : String) :
    (storedFilename now orig).data = (Nat.repr now).data ++ (Node.extname orig).data := by
  rw [storedFilename, String.data_append]

/-- Helper: a stored filename never starts with a dot, since its first
character is a digit of the upload instant. -/
theorem storedFilename_not_dotlist (now : Nat) (orig : String) (rest : List Char) :
    (storedFilename now orig).data ≠ '.' :: rest := by
  intro hd
  rw [storedFilename_data] at hd
  rcases hr : (Nat.repr now).data with _ | ⟨c, cs⟩
  · exact repr_data_ne_nil now hr
  · rw [hr, List.cons_append] at hd
    injection hd with h1 _
    have hcmem : c ∈ (Nat.repr now).data := by
      rw [hr]
      exact List.mem_cons_self c cs
    exact (repr_mem_ne_slash_dot hcmem).2 h1

end Playbase

/-- Claim C1: for every login call where the username has no matching row,
and for every call where the row exists but the password does not verify
against the stored hash, the handler produces the very same outcome — a 401
response with the message "Invalid username or password." — so the caller
gets no signal distinguishing the two cases. -/
theorem login_invalid_indistinguishable (compareFn : String → String → Bool)
    (users : List Playbase.UserRow) (username password : String)
    (hu : username ≠ "") (hp : password ≠ "") :
    (users.find? (fun u => u.username = username) = none →
      Playbase.loginFlow compareFn none users username password =
        ⟨401, "Invalid username or password.", none, none⟩) ∧
    (∀ u, users.find? (fun u => u.username = username) = some u →
      compareFn password u.passwordHash = false →
      Playbase.loginFlow compareFn none users username password =
        ⟨401, "Invalid username or password.", none, none⟩) := by
  constructor
  · intro hfind
    simp [Playbase.loginFlow, hfind, hu, hp]
  · intro u hfind hcmp
    simp [Playbase.loginFlow, hfind, hcmp, hu, hp]

/-- Witness for C1: with a store holding only `alice`, a login as the
nonexistent `bob` and a wrong-password login as `alice` both yield the
identical 401 response. -/
theorem login_invalid_indistinguishable_inst :
    Playbase.loginFlow (fun _ _ => false) none [⟨1, "alice", "hash"⟩] "bob" "pw" =
      ⟨401, "Invalid username or password.", none, none⟩ ∧
    Playbase.loginFlow (fun _ _ => false) none [⟨1, "alice", "hash"⟩] "alice" "wrong" =
      ⟨401, "Invalid username or password.", none, none⟩ := by
  constructor
  · exact (login_invalid_indistinguishable (fun _ _ => false) [⟨1, "alice", "hash"⟩]
      "bob" "pw" (by decide) (by decide)).1 (by decide)
  · exact (login_invalid_indistinguishable (fun _ _ => false) [⟨1, "alice", "hash"⟩]
      "alice" "wrong" (by decide) (by decide)).2 ⟨1, "alice", "hash"⟩ (by decide) rfl

/-- Counterexample to C2 as stated: the filename `a.xmp4` has extension
`.xmp4`, which lies outside the allowed set however read (with or without
the dot), yet the filter accepts it when paired with MIME type `video/mp4`,
because the unanchored regex matches `mp4` as a substring of `.xmp4`. -/
theorem type_gate_substring_cex :
    Playbase.fileFilterAccepts "a.xmp4" "video/mp4" = true ∧
    Playbase.lowerStr (Node.extname "a.xmp4") = ".xmp4" ∧
    (".xmp4" ∉ Playbase.allowedTypeWords.map (fun w => "." ++ w)) ∧
    (".xmp4" ∉ Playbase.allowedTypeWords) ∧
    ("xmp4" ∉ Playbase.allowedTypeWords) := by decide

/-- Claim C2 (amended): the upload type gate accepts exactly when the
lowercased extension of the declared filename contains one of `mp4`, `mov`,
`avi`, `mkv` as a contiguous substring AND the declared MIME type contains
one of them as a contiguous substring; both tests must pass, but they are
substring tests, not exact-set membership. -/
theorem type_gate_substring_characterization (orig mime : String) :
    Playbase.fileFilterAccepts orig mime = true ↔
      ((∃ w ∈ Playbase.allowedTypeWords,
          Playbase.SeqIn w.data (Playbase.lowerStr (Node.extname orig)).data) ∧
       (∃ w ∈ Playbase.allowedTypeWords, Playbase.SeqIn w.data mime.data)) := by
  rw [Playbase.fileFilterAccepts, Bool.and_eq_true,
    Playbase.videoTypeTest_iff, Playbase.videoTypeTest_iff]

/-- Witness for C2 (amended): `clip.MP4` with MIME `video/mp4` passes the
filter, so both substring conditions hold at that input. -/
theorem type_gate_substring_characterization_inst :
    (∃ w ∈ Playbase.allowedTypeWords,
       Playbase.SeqIn w.data (Playbase.lowerStr (Node.extname "clip.MP4")).data) ∧
    (∃ w ∈ Playbase.allowedTypeWords, Playbase.SeqIn w.data ("video/mp4" : String).data) :=
  (type_gate_substring_characterization "clip.MP4" "video/mp4").mp (by decide)

/-- Claim C7: the stored file name is the decimal upload instant followed by
the extension extracted from the declared filename, the recorded path is
that name under the fixed root `/uploads/`, only the extension of the
declared name is honored, and the generated name contains no path separator
and is neither `.` nor `..`, so no client-supplied path escapes the upload
root. -/
theorem upload_filename_from_instant_and_ext (now : Nat) (orig : String) :
    Playbase.storedFilename now orig = Nat.repr now ++ Node.extname orig ∧
    Playbase.videoPathFor now orig = "/uploads/" ++ Playbase.storedFilename now orig ∧
    '/' ∉ (Playbase.storedFilename now orig).data ∧
    Playbase.storedFilename now orig ≠ "." ∧
    Playbase.storedFilename now orig ≠ ".." := by
  refine ⟨rfl, rfl, ?_, ?_, ?_⟩
  · intro hmem
    rw [Playbase.storedFilename_data, List.mem_append] at hmem
    rcases hmem with h | h
    · exact (Playbase.repr_mem_ne_slash_dot h).1 rfl
    · exact Node.slash_notMem_extname_data orig h
  · intro heq
    exact Playbase.storedFilename_not_dotlist now orig []
      ((congrArg String.data heq).trans rfl)
  · intro heq
    exact Playbase.storedFilename_not_dotlist now orig ['.']
      ((congrArg String.data heq).trans rfl)

/-- Witness for C7: a declared name full of traversal components yields a
stored name built only from the instant and the extension, with no slash. -/
theorem upload_filename_from_instant_and_ext_inst :
    Playbase.storedFilename 1700000000000 "evil/../../etc/passwd.mp4" =
      Nat.repr 1700000000000 ++ Node.extname "evil/../../etc/passwd.mp4" ∧
    '/' ∉ (Playbase.storedFilename 1700000000000 "evil/../../etc/passwd.mp4").data ∧
    Playbase.storedFilename 1700000000000 "evil/../../etc/passwd.mp4" ≠ ".." :=
  ⟨(upload_filename_from_instant_and_ext 1700000000000 "evil/../../etc/passwd.mp4").1,
   (upload_filename_from_instant_and_ext 1700000000000 "evil/../../etc/passwd.mp4").2.2.1,
   (upload_filename_from_instant_and_ext 1700000000000 "evil/../../etc/passwd.mp4").2.2.2.2⟩

namespace Playbase

/-- Helper: an upload that passes both multer gates but misses a required
field is answered 400 after the file has already been written. -/
theorem uploadFlow_missing_eq (now : Nat) (f : UploadFile)
    (title description tags : String) (db : DbOutcome) (st : ServerState)
    (hfilter : fileFilterAccepts f.originalname f.mimetype = true)
    (hsize : f.size ≤ fileSizeLimit)
    (hmiss : title = "" ∨ description = "" ∨ tags = "") :
    uploadFlow now (some f) title description tags db st =
      (⟨st.uploadsDir ++ [storedFilename now f.originalname],
        st.videosTable, st.loadedData⟩,
       ⟨400, "Please provide all fields and a video file.", none, none⟩) := by
  simp only [uploadFlow]
  rw [if_pos hfilter, if_pos hsize, if_pos hmiss]

/-- Helper: the full success path of an upload. -/
theorem uploadFlow_ok_eq (now : Nat) (f : UploadFile)
    (title description tags : String) (st : ServerState)
    (hfilter : fileFilterAccepts f.originalname f.mimetype = true)
    (hsize : f.size ≤ fileSizeLimit)
    (ht : title ≠ "") (hd : description ≠ "") (hg : tags ≠ "") :
    uploadFlow now (some f) title description tags DbOutcome.ok st =
      (⟨st.uploadsDir ++ [storedFilename now f.originalname],
        st.videosTable ++ [⟨title, description, tags, videoPathFor now f.originalname⟩],
        st.loadedData ++ [⟨none, title, description, tags, videoPathFor now f.originalname⟩]⟩,
       ⟨200, "Video uploaded successfully!", none, some (videoPathFor now f.originalname)⟩) := by
  have hmiss : ¬(title = "" ∨ description = "" ∨ tags = "") := by
    push_neg
    exact ⟨ht, hd, hg⟩
  simp only [uploadFlow]
  rw [if_pos hfilter, if_pos hsize, if_neg hmiss]
  rfl

/-- Helper: an upload whose store conversation fails is answered 500 with
the underlying message, and the cache is left untouched. -/
theorem uploadFlow_fail_eq (now : Nat) (f : UploadFile)
    (title description tags : String) (stage : DbStage) (m : String) (st : ServerState)
    (hfilter : fileFilterAccepts f.originalname f.mimetype = true)
    (hsize : f.size ≤ fileSizeLimit)
    (ht : title ≠ "") (hd : description ≠ "") (hg : tags ≠ "") :
    uploadFlow now (some f) title description tags (DbOutcome.fail stage m) st =
      (⟨st.uploadsDir ++ [storedFilename now f.originalname],
        uploadFailTable stage ⟨title, description, tags, videoPathFor now f.originalname⟩
          st.videosTable,
        st.loadedData⟩,
       ⟨500, "Database error", some m, none⟩) := by
  have hmiss : ¬(title = "" ∨ description = "" ∨ tags = "") := by
    push_neg
    exact ⟨ht, hd, hg⟩
  simp only [uploadFlow]
  rw [if_pos hfilter, if_pos hsize, if_neg hmiss]
  rfl

/-- Helper: an over-limit upload aborts before any state change. -/
theorem uploadFlow_tooLarge_eq (now : Nat) (f : UploadFile)
    (title description tags : String) (db : DbOutcome) (st : ServerState)
    (hfilter : fileFilterAccepts f.originalname f.mimetype = true)
    (hsize : ¬ f.size ≤ fileSizeLimit) :
    uploadFlow now (some f) title description tags db st =
      (st, ⟨500, "An internal server error occurred.", some "File too large", none⟩) := by
  simp only [uploadFlow]
  rw [if_pos hfilter, if_neg hsize]

end Playbase

/-- Claim C3: an upload that passes the type and size gates but has `title`,
`description`, `tags` empty/absent (or no file at all) is rejected 400
MissingFields, inserts no row into the videos table and appends nothing to
the catalog cache — yet when a file was provided it has already been
written to the uploads directory and stays there (the orphaned-file
ordering hazard).  When no file was provided, nothing changes at all. -/
theorem upload_missing_fields_orphan (now : Nat) (f : Playbase.UploadFile)
    (title description tags : String) (db : Playbase.DbOutcome) (st : Playbase.ServerState)
    (hfilter : Playbase.fileFilterAccepts f.originalname f.mimetype = true)
    (hsize : f.size ≤ Playbase.fileSizeLimit)
    (hmiss : title = "" ∨ description = "" ∨ tags = "") :
    (Playbase.uploadFlow now (some f) title description tags db st).2 =
      ⟨400, "Please provide all fields and a video file.", none, none⟩ ∧
    (Playbase.uploadFlow now (some f) title description tags db st).1.videosTable =
      st.videosTable ∧
    (Playbase.uploadFlow now (some f) title description tags db st).1.loadedData =
      st.loadedData ∧
    (Playbase.uploadFlow now (some f) title description tags db st).1.uploadsDir =
      st.uploadsDir ++ [Playbase.storedFilename now f.originalname] ∧
    Playbase.uploadFlow now none title description tags db st =
      (st, ⟨400, "Please provide all fields and a video file.", none, none⟩) := by
  have h1 := Playbase.uploadFlow_missing_eq now f title description tags db st
    hfilter hsize hmiss
  exact ⟨by rw [h1], by rw [h1], by rw [h1], by rw [h1], rfl⟩

/-- Witness for C3: a valid 10 KiB mp4 upload with an empty title is
answered 400, and its file `7.mp4` is already on disk. -/
theorem upload_missing_fields_orphan_inst :
    (Playbase.uploadFlow 7 (some ⟨"clip.mp4", "video/mp4", 10240⟩) "" "d" "x,y"
        Playbase.DbOutcome.ok ⟨[], [], []⟩).2 =
      ⟨400, "Please provide all fields and a video file.", none, none⟩ ∧
    (Playbase.uploadFlow 7 (some ⟨"clip.mp4", "video/mp4", 10240⟩) "" "d" "x,y"
        Playbase.DbOutcome.ok ⟨[], [], []⟩).1.uploadsDir = ["7.mp4"] := by
  refine ⟨(upload_missing_fields_orphan 7 ⟨"clip.mp4", "video/mp4", 10240⟩ "" "d" "x,y"
    Playbase.DbOutcome.ok ⟨[], [], []⟩ (by decide) (by decide) (Or.inl rfl)).1, ?_⟩
  have h := (upload_missing_fields_orphan 7 ⟨"clip.mp4", "video/mp4", 10240⟩ "" "d" "x,y"
    Playbase.DbOutcome.ok ⟨[], [], []⟩ (by decide) (by decide) (Or.inl rfl)).2.2.2.1
  rw [h]
  decide

/-- Claim C6: after a successful upload (gates passed, insert and commit
succeeded), the catalog cache is the old cache with one entry appended; the
cache's last element carries exactly the upload's title, description, tags
and the recorded video path, and the success response carries that same
path. -/
theorem upload_success_cache_last (now : Nat) (f : Playbase.UploadFile)
    (title description tags : String) (st : Playbase.ServerState)
    (hfilter : Playbase.fileFilterAccepts f.originalname f.mimetype = true)
    (hsize : f.size ≤ Playbase.fileSizeLimit)
    (ht : title ≠ "") (hd : description ≠ "") (hg : tags ≠ "") :
    (Playbase.uploadFlow now (some f) title description tags
        Playbase.DbOutcome.ok st).1.loadedData =
      st.loadedData ++
        [⟨none, title, description, tags, Playbase.videoPathFor now f.originalname⟩] ∧
    (Playbase.uploadFlow now (some f) title description tags
        Playbase.DbOutcome.ok st).1.loadedData.getLast? =
      some ⟨none, title, description, tags, Playbase.videoPathFor now f.originalname⟩ ∧
    (Playbase.uploadFlow now (some f) title description tags
        Playbase.DbOutcome.ok st).2 =
      ⟨200, "Video uploaded successfully!", none,
        some (Playbase.videoPathFor now f.originalname)⟩ := by
  have h1 := Playbase.uploadFlow_ok_eq now f title description tags st
    hfilter hsize ht hd hg
  refine ⟨by rw [h1], ?_, by rw [h1]⟩
  rw [h1]
  exact List.getLast?_concat _

/-- Witness for C6: the concrete scenario of the spec — uploading `clip.mp4`
with title "Demo" — leaves that entry last in the cache. -/
theorem upload_success_cache_last_inst :
    (Playbase.uploadFlow 7 (some ⟨"clip.mp4", "video/mp4", 10240⟩) "Demo" "d" "x,y"
        Playbase.DbOutcome.ok ⟨[], [], []⟩).1.loadedData.getLast? =
      some ⟨none, "Demo", "d", "x,y", Playbase.videoPathFor 7 "clip.mp4"⟩ ∧
    (Playbase.uploadFlow 7 (some ⟨"clip.mp4", "video/mp4", 10240⟩) "Demo" "d" "x,y"
        Playbase.DbOutcome.ok ⟨[], [], []⟩).2 =
      ⟨200, "Video uploaded successfully!", none,
        some (Playbase.videoPathFor 7 "clip.mp4")⟩ :=
  ⟨(upload_success_cache_last 7 ⟨"clip.mp4", "video/mp4", 10240⟩ "Demo" "d" "x,y"
      ⟨[], [], []⟩ (by decide) (by decide) (by decide) (by decide) (by decide)).2.1,
   (upload_success_cache_last 7 ⟨"clip.mp4", "video/mp4", 10240⟩ "Demo" "d" "x,y"
      ⟨[], [], []⟩ (by decide) (by decide) (by decide) (by decide) (by decide)).2.2⟩

/-- Claim C8: the size ceiling is the fixed `200 * 1024 * 1024` bytes, and
for an otherwise valid upload the request succeeds exactly when the file
size is at most the ceiling: exactly-at-ceiling passes, anything over is
rejected by the size gate (multer's LIMIT_FILE_SIZE error). -/
theorem upload_size_gate_boundary (now : Nat) (f : Playbase.UploadFile)
    (title description tags : String) (st : Playbase.ServerState)
    (hfilter : Playbase.fileFilterAccepts f.originalname f.mimetype = true)
    (ht : title ≠ "") (hd : description ≠ "") (hg : tags ≠ "") :
    Playbase.fileSizeLimit = 200 * 1024 * 1024 ∧
    ((Playbase.uploadFlow now (some f) title description tags
        Playbase.DbOutcome.ok st).2.status = 200 ↔ f.size ≤ 200 * 1024 * 1024) ∧
    (¬ f.size ≤ 200 * 1024 * 1024 →
      (Playbase.uploadFlow now (some f) title description tags
          Playbase.DbOutcome.ok st).2 =
        ⟨500, "An internal server error occurred.", some "File too large", none⟩) := by
  by_cases hs : f.size ≤ Playbase.fileSizeLimit
  · have h1 := Playbase.uploadFlow_ok_eq now f title description tags st
      hfilter hs ht hd hg
    refine ⟨rfl, ?_, ?_⟩
    · rw [h1]
      exact iff_of_true rfl hs
    · intro hcon
      exact absurd hs hcon
  · have h1 := Playbase.uploadFlow_tooLarge_eq now f title description tags
      Playbase.DbOutcome.ok st hfilter hs
    refine ⟨rfl, ?_, fun _ => by rw [h1]⟩
    rw [h1]
    refine iff_of_false ?_ hs
    intro h200
    simp at h200

/-- Witness for C8: a file of exactly 209715200 bytes succeeds and a file of
209715201 bytes is rejected as too large. -/
theorem upload_size_gate_boundary_inst :
    (Playbase.uploadFlow 7 (some ⟨"clip.mp4", "video/mp4", 209715200⟩) "Demo" "d" "x"
        Playbase.DbOutcome.ok ⟨[], [], []⟩).2.status = 200 ∧
    (Playbase.uploadFlow 7 (some ⟨"clip.mp4", "video/mp4", 209715201⟩) "Demo" "d" "x"
        Playbase.DbOutcome.ok ⟨[], [], []⟩).2 =
      ⟨500, "An internal server error occurred.", some "File too large", none⟩ :=
  ⟨(upload_size_gate_boundary 7 ⟨"clip.mp4", "video/mp4", 209715200⟩ "Demo" "d" "x"
      ⟨[], [], []⟩ (by decide) (by decide) (by decide) (by decide)).2.1.mpr (by decide),
   (upload_size_gate_boundary 7 ⟨"clip.mp4", "video/mp4", 209715201⟩ "Demo" "d" "x"
      ⟨[], [], []⟩ (by decide) (by decide) (by decide) (by decide)).2.2 (by decide)⟩

/-- Claim C9: every cache entry built by the startup load carries a numeric
id, the entry appended by a successful upload carries none, so after one
post-startup upload into a nonempty loaded catalog the served listing
contains entries of both shapes. -/
theorem catalog_shapes_heterogeneous (rows : List Playbase.DbVideoRow)
    (now : Nat) (f : Playbase.UploadFile) (title description tags : String)
    (d : List String) (v : List Playbase.VideoRow)
    (hrows : rows ≠ [])
    (hfilter : Playbase.fileFilterAccepts f.originalname f.mimetype = true)
    (hsize : f.size ≤ Playbase.fileSizeLimit)
    (ht : title ≠ "") (hd : description ≠ "") (hg : tags ≠ "") :
    (∀ e ∈ Playbase.loadData rows, (e.id).isSome = true) ∧
    (∃ e1 ∈ Playbase.listAll (Playbase.uploadFlow now (some f) title description tags
        Playbase.DbOutcome.ok ⟨d, v, Playbase.loadData rows⟩).1, (e1.id).isSome = true) ∧
    (∃ e2 ∈ Playbase.listAll (Playbase.uploadFlow now (some f) title description tags
        Playbase.DbOutcome.ok ⟨d, v, Playbase.loadData rows⟩).1, e2.id = none) := by
  have h1 := Playbase.uploadFlow_ok_eq now f title description tags
    ⟨d, v, Playbase.loadData rows⟩ hfilter hsize ht hd hg
  have hload : ∀ e ∈ Playbase.loadData rows, (e.id).isSome = true := by
    intro e he
    rcases List.mem_map.mp he with ⟨r, _, rfl⟩
    rfl
  refine ⟨hload, ?_, ?_⟩
  · rcases List.exists_mem_of_ne_nil rows hrows with ⟨r, hr⟩
    refine ⟨⟨some r.id, r.title, r.description, r.tags, r.videoPath⟩, ?_, rfl⟩
    rw [Playbase.listAll, h1]
    exact List.mem_append_left _ (List.mem_map.mpr ⟨r, hr, rfl⟩)
  · refine ⟨⟨none, title, description, tags, Playbase.videoPathFor now f.originalname⟩,
      ?_, rfl⟩
    rw [Playbase.listAll, h1]
    exact List.mem_append_right _ (List.mem_singleton.mpr rfl)

/-- Witness for C9: a catalog loaded with one row plus one fresh upload
serves one entry with an id and one without. -/
theorem catalog_shapes_heterogeneous_inst :
    (∃ e1 ∈ Playbase.listAll (Playbase.uploadFlow 7 (some ⟨"clip.mp4", "video/mp4", 10240⟩)
        "Demo" "d" "x,y" Playbase.DbOutcome.ok
        ⟨[], [], Playbase.loadData [⟨1, "t", "de", "g", "/uploads/1.mp4"⟩]⟩).1,
      (e1.id).isSome = true) ∧
    (∃ e2 ∈ Playbase.listAll (Playbase.uploadFlow 7 (some ⟨"clip.mp4", "video/mp4", 10240⟩)
        "Demo" "d" "x,y" Playbase.DbOutcome.ok
        ⟨[], [], Playbase.loadData [⟨1, "t", "de", "g", "/uploads/1.mp4"⟩]⟩).1,
      e2.id = none) :=
  ⟨(catalog_shapes_heterogeneous [⟨1, "t", "de", "g", "/uploads/1.mp4"⟩] 7
      ⟨"clip.mp4", "video/mp4", 10240⟩ "Demo" "d" "x,y" [] [] (by decide) (by decide)
      (by decide) (by decide) (by decide) (by decide)).2.1,
   (catalog_shapes_heterogeneous [⟨1, "t", "de", "g", "/uploads/1.mp4"⟩] 7
      ⟨"clip.mp4", "video/mp4", 10240⟩ "Demo" "d" "x,y" [] [] (by decide) (by decide)
      (by decide) (by decide) (by decide) (by decide)).2.2⟩

/-- Claim C10: when an upload passes every gate but its store conversation
fails, the catalog cache is left exactly as it was and the caller gets the
500 "Database error" response carrying the underlying message; the cache
append happens only on the fully successful conversation. -/
theorem upload_db_failure_cache_unchanged (now : Nat) (f : Playbase.UploadFile)
    (title description tags : String) (stage : Playbase.DbStage) (m : String)
    (st : Playbase.ServerState)
    (hfilter : Playbase.fileFilterAccepts f.originalname f.mimetype = true)
    (hsize : f.size ≤ Playbase.fileSizeLimit)
    (ht : title ≠ "") (hd : description ≠ "") (hg : tags ≠ "") :
    (Playbase.uploadFlow now (some f) title description tags
        (Playbase.DbOutcome.fail stage m) st).1.loadedData = st.loadedData ∧
    (Playbase.uploadFlow now (some f) title description tags
        (Playbase.DbOutcome.fail stage m) st).2 =
      ⟨500, "Database error", some m, none⟩ ∧
    (∀ db : Playbase.DbOutcome,
      (Playbase.uploadFlow now (some f) title description tags db st).1.loadedData ≠
        st.loadedData → db = Playbase.DbOutcome.ok) := by
  have h1 := Playbase.uploadFlow_fail_eq now f title description tags stage m st
    hfilter hsize ht hd hg
  refine ⟨by rw [h1], by rw [h1], ?_⟩
  intro db hne
  cases db with
  | ok => rfl
  | fail stage2 m2 =>
    have h2 := Playbase.uploadFlow_fail_eq now f title description tags stage2 m2 st
      hfilter hsize ht hd hg
    exact absurd (by rw [h2]) hne

/-- Witness for C10: a failed INSERT leaves the empty cache empty and
returns 500 with the store's message. -/
theorem upload_db_failure_cache_unchanged_inst :
    (Playbase.uploadFlow 7 (some ⟨"clip.mp4", "video/mp4", 10240⟩) "Demo" "d" "x,y"
        (Playbase.DbOutcome.fail Playbase.DbStage.insert "ORA-boom") ⟨[], [], []⟩).1.loadedData =
      [] ∧
    (Playbase.uploadFlow 7 (some ⟨"clip.mp4", "video/mp4", 10240⟩) "Demo" "d" "x,y"
        (Playbase.DbOutcome.fail Playbase.DbStage.insert "ORA-boom") ⟨[], [], []⟩).2 =
      ⟨500, "Database error", some "ORA-boom", none⟩ :=
  ⟨(upload_db_failure_cache_unchanged 7 ⟨"clip.mp4", "video/mp4", 10240⟩ "Demo" "d" "x,y"
      Playbase.DbStage.insert "ORA-boom" ⟨[], [], []⟩ (by decide) (by decide) (by decide)
      (by decide) (by decide)).1,
   (upload_db_failure_cache_unchanged 7 ⟨"clip.mp4", "video/mp4", 10240⟩ "Demo" "d" "x,y"
      Playbase.DbStage.insert "ORA-boom" ⟨[], [], []⟩ (by decide) (by decide) (by decide)
      (by decide) (by decide)).2.1⟩

/-- Claim C5: a signup whose username already has a row, once the connection
and lookup succeed, is answered 400 "Username already exists." and the users
table is returned exactly as it was: no insert, no alteration of the
existing record. -/
theorem signup_duplicate_username_unchanged (hash : String → String)
    (db : Playbase.SignupDbOutcome) (users : List Playbase.UserRow) (nextId : Int)
    (username password : String)
    (hu : username ≠ "") (hp : password ≠ "")
    (hdb : Playbase.reachesDupCheck db = true)
    (hdup : (users.find? (fun u => u.username = username)).isSome = true) :
    Playbase.signupFlow hash db users nextId username password =
      (users, ⟨400, "Username already exists.", none, none⟩) := by
  have hmiss : ¬(username = "" ∨ password = "") := by
    push_neg
    exact ⟨hu, hp⟩
  cases db with
  | ok =>
    simp only [Playbase.signupFlow]
    rw [if_neg hmiss, if_pos hdup]
  | fail stage m =>
    cases stage with
    | conn => simp [Playbase.reachesDupCheck] at hdb
    | select => simp [Playbase.reachesDupCheck] at hdb
    | insert =>
      simp only [Playbase.signupFlow]
      rw [if_neg hmiss, if_pos hdup]
    | commit =>
      simp only [Playbase.signupFlow]
      rw [if_neg hmiss, if_pos hdup]
    | close =>
      simp only [Playbase.signupFlow]
      rw [if_neg hmiss, if_pos hdup]

/-- Witness for C5: signing up `alice` again against a store already holding
`alice` returns the duplicate error and the untouched table. -/
theorem signup_duplicate_username_unchanged_inst :
    Playbase.signupFlow (fun p => p ++ "#h") Playbase.SignupDbOutcome.ok
        [⟨1, "alice", "H1"⟩, ⟨2, "bob", "H2"⟩] 3 "alice" "secret123" =
      ([⟨1, "alice", "H1"⟩, ⟨2, "bob", "H2"⟩],
       ⟨400, "Username already exists.", none, none⟩) :=
  signup_duplicate_username_unchanged (fun p => p ++ "#h") Playbase.SignupDbOutcome.ok
    [⟨1, "alice", "H1"⟩, ⟨2, "bob", "H2"⟩] 3 "alice" "secret123"
    (by decide) (by decide) (by decide) (by decide)

/-- Counterexample to C4 as stated: a persistence failure at the INSERT with
message "ORA-00001: unique constraint violated" is answered with the fixed
body `{"message": "Error registering user."}` — the response carries no
`error` field and its message does not contain the underlying text, so the
cause is dropped, not surfaced. -/
theorem signup_store_error_drops_cause_cex :
    (Playbase.signupFlow (fun p => p) (Playbase.SignupDbOutcome.fail
        Playbase.SignupStage.insert "ORA-00001: unique constraint violated")
        [] 1 "alice" "pw").2 = Playbase.signupStoreFailure ∧
    (Playbase.signupFlow (fun p => p) (Playbase.SignupDbOutcome.fail
        Playbase.SignupStage.insert "ORA-00001: unique constraint violated")
        [] 1 "alice" "pw").2.errMsg ≠
      some "ORA-00001: unique constraint violated" ∧
    Playbase.hasSeq ("ORA-00001").data
      ((Playbase.signupFlow (fun p => p) (Playbase.SignupDbOutcome.fail
          Playbase.SignupStage.insert "ORA-00001: unique constraint violated")
          [] 1 "alice" "pw").2.message).data = false := by decide

/-- Claim C4 (amended): every persistence-layer failure during signup (at
connect, select, insert, commit or close) surfaces to the caller as the
generic 500 body "Error registering user." with no error field; the
underlying message is only logged, never returned. -/
theorem signup_store_error_generic (hash : String → String)
    (stage : Playbase.SignupStage) (m : String) (users : List Playbase.UserRow)
    (nextId : Int) (username password : String)
    (hu : username ≠ "") (hp : password ≠ "")
    (hnodup : users.find? (fun u => u.username = username) = none) :
    (Playbase.signupFlow hash (Playbase.SignupDbOutcome.fail stage m) users nextId
        username password).2 = Playbase.signupStoreFailure ∧
    (Playbase.signupFlow hash (Playbase.SignupDbOutcome.fail stage m) users nextId
        username password).2.errMsg = none := by
  have hmiss : ¬(username = "" ∨ password = "") := by
    push_neg
    exact ⟨hu, hp⟩
  have hne : ¬((users.find? (fun u => u.username = username)).isSome = true) := by
    rw [hnodup]
    decide
  have key : (Playbase.signupFlow hash (Playbase.SignupDbOutcome.fail stage m) users
      nextId username password).2 = Playbase.signupStoreFailure := by
    cases stage with
    | conn =>
      simp only [Playbase.signupFlow]
      rw [if_neg hmiss]
    | select =>
      simp only [Playbase.signupFlow]
      rw [if_neg hmiss]
    | insert =>
      simp only [Playbase.signupFlow]
      rw [if_neg hmiss, if_neg hne]
    | commit =>
      simp only [Playbase.signupFlow]
      rw [if_neg hmiss, if_neg hne]
    | close =>
      simp only [Playbase.signupFlow]
      rw [if_neg hmiss, if_neg hne]
  exact ⟨key, by rw [key]; rfl⟩

/-- Witness for C4 (amended): a connect failure with message "boom" on a
fresh store yields the generic 500 body with no error field. -/
theorem signup_store_error_generic_inst :
    (Playbase.signupFlow (fun p => p ++ "#h") (Playbase.SignupDbOutcome.fail
        Playbase.SignupStage.conn "boom") [] 1 "alice" "pw").2 =
      Playbase.signupStoreFailure ∧
    (Playbase.signupFlow (fun p => p ++ "#h") (Playbase.SignupDbOutcome.fail
        Playbase.SignupStage.conn "boom") [] 1 "alice" "pw").2.errMsg = none :=
  signup_store_error_generic (fun p => p ++ "#h") Playbase.SignupStage.conn "boom"
    [] 1 "alice" "pw" (by decide) (by decide) (by decide)
